import Mathlib

/-!
# Verification of the event-sniper filtering and normalization engine

Shallow embedding of `src/firmware/m5stickc_plus2/event_contract.py`.

Two layers are modelled:

* a typed layer (`EventRecord`) for records whose fields, when present,
  have the expected types (strings; a list of strings for `entities`) —
  this is the data-model shape over which the acceptance-policy claims
  quantify; missing fields are `Option.none`, matching the Python
  `dict.get` behaviour of returning `None`;
* a raw layer (`PyVal` / `RawDict`) for arbitrary loosely typed records,
  with Python exceptions modelled by `Except PyErr` — used for the
  totality and pipeline-boundary claims;
* a heap-indexed layer (`HRecord`) where the `entities` list is a
  reference into an explicit heap, used to reason about the sharing
  behaviour of the shallow `dict.copy()` performed on acceptance.
-/

/-! ## Controlled vocabularies (module-level constants) -/

def ALLOWED_EVENT_TYPES : List String :=
  ["POLITICAL_STATEMENT", "GLOBAL_EVENT", "MACRO_SHOCK"]

def ALLOWED_SOURCES : List String :=
  ["GLOBAL_NEWS", "POLITICAL_STATEMENT", "GEOPOLITICS"]

def GLOBAL_ENTITIES : List String :=
  ["TRUMP", "USA", "CHINA", "RUSSIA", "EU", "NATO", "FED", "IMF"]

/-- The SOURCE_MAP table local to `normalize_event` in the source. -/
def SOURCE_MAP : List (String × String) :=
  [("TRUMP", "POLITICAL_STATEMENT"),
   ("TRUMP_SOCIAL", "POLITICAL_STATEMENT"),
   ("NEWS", "GLOBAL_NEWS"),
   ("GLOBAL", "GLOBAL_NEWS")]

/-- Python `str.upper()` (ASCII range), written character-wise so that
it reduces inside the kernel. -/
def py_upper (s : String) : String := String.mk (s.data.map Char.toUpper)

/-! ## Typed layer -/

/--
A detection record of the data-model shape: each field is optional
(`none` models a missing dictionary key, for which Python `get` yields
`None`), and present fields have the expected type.
-/
structure EventRecord where
  event_type : Option String
  source     : Option String
  confidence : Option String
  entities   : Option (List String)
  timestamp  : Option String
deriving DecidableEq, Repr

/-- The anti-spam state: the last accepted record, if any. -/
abbrev AcceptanceState := Option EventRecord

/-- Python `x in l` for an optional string against a list of strings:
`None` is never equal to a string. -/
def optMem (o : Option String) (l : List String) : Bool :=
  match o with
  | some s => l.contains s
  | none => false

/--
`events_are_identical` from the source: structural equality of exactly
the four fields `event_type`, `source`, `confidence`, `entities`.
-/
def events_are_identical (e1 e2 : EventRecord) : Bool :=
  e1.event_type == e2.event_type &&
  e1.source == e2.source &&
  e1.confidence == e2.confidence &&
  e1.entities == e2.entities

/--
`should_accept_event` from the source, with the module-level global
`_last_accepted_event` threaded explicitly: the result is the returned
boolean together with the state after the call.  On acceptance the
stored record is `event_payload.copy()`, which in this value-level
layer is the record itself (sharing is analysed in the heap layer).
-/
def should_accept_event (p : EventRecord) (st : AcceptanceState) :
    Bool × AcceptanceState :=
  -- RULE 1: confidence check (Trump social bypass)
  if (p.source != some "POLITICAL_STATEMENT") &&
     (p.confidence != some "HIGH") then
    (false, st)
  -- RULE 2: event type must be global-scale
  else if !(optMem p.event_type ALLOWED_EVENT_TYPES) then
    (false, st)
  -- RULE 3: source must be credible
  else if !(optMem p.source ALLOWED_SOURCES) then
    (false, st)
  -- RULE 4: must mention at least one global entity
  else if !((p.entities.getD []).any fun e =>
      GLOBAL_ENTITIES.contains (py_upper e)) then
    (false, st)
  else
    -- RULE 5: anti-spam, reject duplicates
    match st with
    | some last =>
      if events_are_identical p last then (false, st)
      else (true, some p)
    | none => (true, some p)

/-- `reset_state` from the source: clears the anti-spam state. -/
def reset_state (_st : AcceptanceState) : AcceptanceState := none

/-- The state at process start: the module-level global is initialised
to `None`. -/
def initial_state : AcceptanceState := none

/--
`normalize_event` from the source, restricted to the typed layer where
every present field is well typed: upper-case `confidence`, upper-case
`source` and remap it through `SOURCE_MAP`, upper-case every entity.
-/
def normalize_event (e : EventRecord) : EventRecord :=
  { e with
    confidence := e.confidence.map py_upper,
    source := e.source.map fun s =>
      ((SOURCE_MAP.lookup (py_upper s)).getD (py_upper s)),
    entities := e.entities.map (List.map py_upper) }

/-- The 3-field device payload produced on acceptance. -/
structure DevicePayload where
  event_type : Option String
  confidence : Option String
  symbol     : String
deriving DecidableEq, Repr

/-- The symbol derivation of `process_event`: first two entities joined
by a slash, a single entity over NEWS, or the GLOBAL/NEWS fallback. -/
def symbol_for (entities : List String) : String :=
  match entities with
  | e0 :: e1 :: _ => e0 ++ "/" ++ e1
  | [e0] => e0 ++ "/NEWS"
  | [] => "GLOBAL/NEWS"

/--
`process_event` from the source: filter through `should_accept_event`,
and on acceptance project the record to the device payload.  Note the
source applies no normalization here: the argument is filtered as is.
-/
def process_event (p : EventRecord) (st : AcceptanceState) :
    Option DevicePayload × AcceptanceState :=
  let r := should_accept_event p st
  if r.1 then
    (some { event_type := p.event_type,
            confidence := p.confidence,
            symbol := symbol_for (p.entities.getD []) }, r.2)
  else
    (none, r.2)

/-! ## Raw layer

Arbitrary loosely typed records, as delivered by the external detection
collaborator.  Python exceptions are modelled by `Except PyErr`; Python
values by `PyVal` (the shapes `json.loads` can produce that are relevant
here). -/

/-- The Python exception classes that the embedded code can raise. -/
inductive PyErr where
  | attributeError
  | typeError
  | keyError
  | indexError
  | importError
  | otherError
deriving DecidableEq, Repr

/-- A loosely typed Python value. -/
inductive PyVal where
  | str : String → PyVal
  | int : Int → PyVal
  | bool : Bool → PyVal
  | list : List PyVal → PyVal
  | dict : List (String × PyVal) → PyVal
  | none : PyVal
deriving Repr

/-- A Python dict with string keys, in insertion order. -/
abbrev RawDict := List (String × PyVal)

mutual
/-- Python structural equality `==` on values: strings, numbers and
`None` compare by value, lists element-wise in order, dicts as
unordered key-value mappings. -/
def pyEq : PyVal → PyVal → Bool
  | .str a, .str b => a == b
  | .int a, .int b => a == b
  | .bool a, .bool b => a == b
  | .none, .none => true
  | .list a, .list b => pyEqList a b
  | .dict a, .dict b => a.length == b.length && pyEqSub a b
  | _, _ => false

def pyEqList : List PyVal → List PyVal → Bool
  | [], [] => true
  | x :: xs, y :: ys => pyEq x y && pyEqList xs ys
  | _, _ => false

def pyEqSub : List (String × PyVal) → List (String × PyVal) → Bool
  | [], _ => true
  | (k, v) :: rest, b => pyEqFind k v b && pyEqSub rest b

def pyEqFind : String → PyVal → List (String × PyVal) → Bool
  | _, _, [] => false
  | k, v, (k2, v2) :: rest => if k = k2 then pyEq v v2 else pyEqFind k v rest
end

mutual
/-- Python `repr`, as used by `str()` on non-string values inside an
f-string. -/
def pyRepr : PyVal → String
  | .str s => "\x27" ++ s ++ "\x27"
  | .int n => toString n
  | .bool b => if b then "True" else "False"
  | .none => "None"
  | .list l => "[" ++ pyReprList l ++ "]"
  | .dict kvs => "\x7b" ++ pyReprDict kvs ++ "\x7d"

def pyReprList : List PyVal → String
  | [] => ""
  | [v] => pyRepr v
  | v :: rest => pyRepr v ++ ", " ++ pyReprList rest

def pyReprDict : List (String × PyVal) → String
  | [] => ""
  | [(k, v)] => "\x27" ++ k ++ "\x27: " ++ pyRepr v
  | (k, v) :: rest => "\x27" ++ k ++ "\x27: " ++ pyRepr v ++ ", " ++ pyReprDict rest
end

/-- Python `str()`, as applied by an f-string interpolation. -/
def pyStr : PyVal → String
  | .str s => s
  | v => pyRepr v

/-- Key lookup in a dict: `d[k]` when present. -/
def lookupKey (d : RawDict) (k : String) : Option PyVal :=
  (d.find? fun kv => kv.1 = k).map fun kv => kv.2

/-- Python `d.get(k)`: the value when the key is present, else `None`
(a present `None` value and an absent key are indistinguishable). -/
def getRaw (d : RawDict) (k : String) : PyVal :=
  (lookupKey d k).getD .none

/-- `d[k] = v` on a dict: update in place, preserving insertion order;
appends when the key is new. -/
def setKey : RawDict → String → PyVal → RawDict
  | [], k, v => [(k, v)]
  | (k2, v2) :: rest, k, v =>
    if k2 = k then (k, v) :: rest else (k2, v2) :: setKey rest k v

/-- Python `v.upper()`: succeeds exactly on strings, raising
`AttributeError` on every other value. -/
def pyUpperVal : PyVal → Except PyErr PyVal
  | .str s => .ok (.str (py_upper s))
  | _ => .error .attributeError

/-- Python `isinstance(v, dict)`. -/
def isDict : PyVal → Bool
  | .dict _ => true
  | _ => false

/-- Python `isinstance(v, list)`. -/
def isList : PyVal → Bool
  | .list _ => true
  | _ => false

/-- Python iteration `for x in v`: lists yield their elements, strings
their characters, dicts their keys; other values raise `TypeError`. -/
def pyIter : PyVal → Except PyErr (List PyVal)
  | .list l => .ok l
  | .str s => .ok (s.data.map fun c => .str (String.mk [c]))
  | .dict kvs => .ok (kvs.map fun kv => .str kv.1)
  | _ => .error .typeError

/-- Python `len(v)` for the shapes it accepts. -/
def pyLen : PyVal → Except PyErr Nat
  | .list l => .ok l.length
  | .str s => .ok s.length
  | .dict kvs => .ok kvs.length
  | _ => .error .typeError

/-- Python `v[i]` for a natural index. -/
def pyIndex : PyVal → Nat → Except PyErr PyVal
  | .list l, i =>
    match l.get? i with
    | some v => .ok v
    | Option.none => .error .indexError
  | .str s, i =>
    match s.data.get? i with
    | some c => .ok (.str (String.mk [c]))
    | Option.none => .error .indexError
  | .dict _, _ => .error .keyError
  | _, _ => .error .typeError

/-- The list comprehension `[e.upper() for e in l]`: left to right, the
first failing element raises. -/
def mapUpperList : List PyVal → Except PyErr (List PyVal)
  | [] => .ok []
  | v :: rest => do
    let u ← pyUpperVal v
    let us ← mapUpperList rest
    pure (u :: us)

/-- Python membership `x in l` against a list of string constants. -/
def pyInStrList (x : PyVal) (l : List String) : Bool :=
  match x with
  | .str s => l.contains s
  | _ => false

/--
`normalize_event` from the source on a raw dict: upper-case
`confidence` when the key is present, upper-case and remap `source`,
upper-case every entity when `entities` is present and is a list.  The
case transformations are attempted without a type check, so a
non-string `confidence` or `source`, or a non-string element inside a
list-valued `entities`, raises `AttributeError`.
-/
def normalizeRawEvent (ev : RawDict) : Except PyErr RawDict := do
  let ev1 ← match lookupKey ev "confidence" with
    | some v => do
      let u ← pyUpperVal v
      pure (setKey ev "confidence" u)
    | Option.none => pure ev
  let ev2 ← match lookupKey ev1 "source" with
    | some v => do
      let u ← pyUpperVal v
      match u with
      | .str s => pure (setKey ev1 "source" (.str ((SOURCE_MAP.lookup s).getD s)))
      | _ => pure (setKey ev1 "source" u)
    | Option.none => pure ev1
  match lookupKey ev2 "entities" with
  | some (.list l) => do
    let us ← mapUpperList l
    pure (setKey ev2 "entities" (.list us))
  | _ => pure ev2

/-- `events_are_identical` from the source on raw dicts: `get` each of
the four fields and compare with Python `==`. -/
def eventsAreIdenticalRaw (e1 e2 : RawDict) : Bool :=
  pyEq (getRaw e1 "event_type") (getRaw e2 "event_type") &&
  pyEq (getRaw e1 "source") (getRaw e2 "source") &&
  pyEq (getRaw e1 "confidence") (getRaw e2 "confidence") &&
  pyEq (getRaw e1 "entities") (getRaw e2 "entities")

/-- The generator `any(entity.upper() in GLOBAL_ENTITIES for entity in
items)`: short-circuits on the first match, raises on the first
non-string element reached. -/
def anyGlobalRaw : List PyVal → Except PyErr Bool
  | [] => .ok false
  | v :: rest => do
    let u ← pyUpperVal v
    match u with
    | .str s => if GLOBAL_ENTITIES.contains s then pure true else anyGlobalRaw rest
    | _ => anyGlobalRaw rest

/-- `should_accept_event` from the source on a raw dict.  Exceptions
can only arise in the global-entity gate, before the state is written,
so an error leaves the state unchanged. -/
def shouldAcceptRaw (p : RawDict) (st : Option RawDict) :
    Except PyErr (Bool × Option RawDict) := do
  let confidence := getRaw p "confidence"
  let source := getRaw p "source"
  if !(pyEq source (.str "POLITICAL_STATEMENT")) &&
     !(pyEq confidence (.str "HIGH")) then
    pure (false, st)
  else if !(pyInStrList (getRaw p "event_type") ALLOWED_EVENT_TYPES) then
    pure (false, st)
  else if !(pyInStrList source ALLOWED_SOURCES) then
    pure (false, st)
  else do
    let entities := match lookupKey p "entities" with
      | some v => v
      | Option.none => .list []
    let items ← pyIter entities
    let hasGlobal ← anyGlobalRaw items
    if !hasGlobal then pure (false, st)
    else match st with
      | some last =>
        if eventsAreIdenticalRaw p last then pure (false, st)
        else pure (true, some p)
      | Option.none => pure (true, some p)

/-- The dict literal returned by `process_event` on acceptance. -/
def payloadRaw (p : RawDict) (symbol : String) : PyVal :=
  .dict [("event_type", getRaw p "event_type"),
         ("confidence", getRaw p "confidence"),
         ("symbol", .str symbol)]

/-- `process_event` from the source on a raw dict.  An error after the
acceptance stored the record carries the already updated state. -/
def processEventRaw (p : RawDict) (st : Option RawDict) :
    Except (PyErr × Option RawDict) (Option PyVal × Option RawDict) :=
  match shouldAcceptRaw p st with
  | .error e => .error (e, st)
  | .ok (false, st1) => .ok (Option.none, st1)
  | .ok (true, st1) =>
    let entities := match lookupKey p "entities" with
      | some v => v
      | Option.none => .list []
    match pyLen entities with
    | .error e => .error (e, st1)
    | .ok n =>
      if n ≥ 2 then
        match pyIndex entities 0 with
        | .error e => .error (e, st1)
        | .ok a =>
          match pyIndex entities 1 with
          | .error e => .error (e, st1)
          | .ok b => .ok (some (payloadRaw p (pyStr a ++ "/" ++ pyStr b)), st1)
      else if n = 1 then
        match pyIndex entities 0 with
        | .error e => .error (e, st1)
        | .ok a => .ok (some (payloadRaw p (pyStr a ++ "/NEWS")), st1)
      else .ok (some (payloadRaw p "GLOBAL/NEWS"), st1)

/--
`process_raw_text` from the source.  The outcome of the external
`detect` call is a parameter: `.error` models a raised exception or an
unavailable detection module, `.ok v` a returned value.  The
surrounding try block maps every raised exception to `None`, keeping
whatever state was current when the exception occurred.
-/
def process_raw_text (d : Except PyErr PyVal) (st : Option RawDict) :
    Option PyVal × Option RawDict :=
  match d with
  | .error _ => (Option.none, st)
  | .ok v =>
    match v with
    | .dict fields =>
      match normalizeRawEvent fields with
      | .error _ => (Option.none, st)
      | .ok nf =>
        match processEventRaw nf st with
        | .ok res => res
        | .error es => (Option.none, es.2)
    | _ => (Option.none, st)

/-! ## Heap layer

`dict.copy()` is a shallow copy: the copied dict holds the same list
object under `entities`.  To reason about that sharing, this layer
gives records an `entities` field that is a reference (an index) into
an explicit heap of list cells; `copy` duplicates the record but not
the cell. -/

/-- The heap of entity-list cells, addressed by index. -/
abbrev EntHeap := List (List String)

/-- A record whose `entities` field is a reference into the heap
(`Option.none` models an absent key). -/
structure HRecord where
  event_type : Option String
  source     : Option String
  confidence : Option String
  entities   : Option Nat
  timestamp  : Option String
deriving DecidableEq, Repr

/-- Dereference a heap cell. -/
def readList (h : EntHeap) (a : Nat) : List String :=
  (h.get? a).getD []

/-- The entities of a record as a value, read through the heap; an
absent key reads as the `get` default `[]`. -/
def entsVal (h : EntHeap) (r : HRecord) : List String :=
  match r.entities with
  | some a => readList h a
  | Option.none => []

/-- `events_are_identical` in the heap layer: `entities` values are
compared through the heap (Python `==` on lists compares contents),
with an absent key distinct from an empty list. -/
def events_are_identicalH (h : EntHeap) (e1 e2 : HRecord) : Bool :=
  e1.event_type == e2.event_type &&
  e1.source == e2.source &&
  e1.confidence == e2.confidence &&
  (e1.entities.map (readList h) == e2.entities.map (readList h))

/-- `should_accept_event` in the heap layer.  On acceptance the stored
record is the shallow `copy()` of the candidate: the same record value,
holding the same `entities` cell address; no new cell is allocated and
the heap is untouched. -/
def should_accept_eventH (h : EntHeap) (p : HRecord) (st : Option HRecord) :
    Bool × Option HRecord :=
  if (p.source != some "POLITICAL_STATEMENT") &&
     (p.confidence != some "HIGH") then
    (false, st)
  else if !(optMem p.event_type ALLOWED_EVENT_TYPES) then
    (false, st)
  else if !(optMem p.source ALLOWED_SOURCES) then
    (false, st)
  else if !((entsVal h p).any fun e =>
      GLOBAL_ENTITIES.contains (py_upper e)) then
    (false, st)
  else
    match st with
    | some last =>
      if events_are_identicalH h p last then (false, st)
      else (true, some p)
    | Option.none => (true, some p)

/-- In-place mutation of an entities list, `lst[...] = ...` or
`lst.append(...)` seen as replacing the cell contents. -/
def mutateCell (h : EntHeap) (a : Nat) (v : List String) : EntHeap :=
  h.set a v

/-! ## Sample records -/

/-- A canonical accepted record: Trump statement, HIGH confidence,
entities TRUMP and FED. -/
def recTrumpFed : EventRecord :=
  { event_type := some "POLITICAL_STATEMENT",
    source := some "POLITICAL_STATEMENT",
    confidence := some "HIGH",
    entities := some ["TRUMP", "FED"],
    timestamp := some "2025-01-01T00:00:00Z" }

/-- The same record with the entities in the opposite order. -/
def recFedTrump : EventRecord :=
  { recTrumpFed with entities := some ["FED", "TRUMP"] }

/-- The same record with a different timestamp. -/
def recTrumpFedLater : EventRecord :=
  { recTrumpFed with timestamp := some "2025-06-30T12:00:00Z" }

/-- A candidate differing from canonical form only in casing: judged as
is, its source misses the political-statement bypass and its lowercase
confidence misses HIGH. -/
def recLowercase : EventRecord :=
  { event_type := some "GLOBAL_EVENT",
    source := some "GLOBAL_NEWS",
    confidence := some "high",
    entities := some ["USA", "CHINA"],
    timestamp := none }

/-- A record whose source is the synonym TRUMP_STATEMENT in lower case. -/
def recTrumpStatementSrc : EventRecord :=
  { event_type := none, source := some "trump_statement",
    confidence := none, entities := none, timestamp := none }

/-- A record that fails every gate: all fields absent. -/
def recEmpty : EventRecord :=
  { event_type := none, source := none, confidence := none,
    entities := none, timestamp := none }

/-- Heap-layer counterpart of `recTrumpFed`, entities stored in cell 0. -/
def hrecCand : HRecord :=
  { event_type := some "POLITICAL_STATEMENT",
    source := some "POLITICAL_STATEMENT",
    confidence := some "HIGH",
    entities := some 0,
    timestamp := none }

/-- A fresh record with the same field values as `hrecCand` but its own
entities cell at address 1. -/
def hrecResubmit : HRecord :=
  { hrecCand with entities := some 1 }

/-- The initial heap: cell 0 holds TRUMP, FED. -/
def heap0 : EntHeap := [["TRUMP", "FED"]]

/-- The heap after the caller mutates its entities list in place. -/
def heap1 : EntHeap := mutateCell heap0 0 ["TRUMP"]

/-- The heap after a fresh entities list with the original contents is
allocated for the resubmission. -/
def heap2 : EntHeap := heap1 ++ [["TRUMP", "FED"]]

/-- A record with the first-class political-statement source, fixed
valid event type and entities, and an arbitrary confidence value. -/
def recPSWithConf (conf : Option String) : EventRecord :=
  { event_type := some "POLITICAL_STATEMENT",
    source := some "POLITICAL_STATEMENT",
    confidence := conf,
    entities := some ["TRUMP", "FED"],
    timestamp := none }

/-! ## Helper lemmas -/

lemma optMem_iff (o : Option String) (l : List String) :
    optMem o l = true ↔ ∃ s, o = some s ∧ s ∈ l := by
  cases o <;> simp [optMem]

lemma should_accept_fst_eq (p : EventRecord) (st : AcceptanceState) :
    (should_accept_event p st).1 =
      ((p.source == some "POLITICAL_STATEMENT" ||
        p.confidence == some "HIGH") &&
       optMem p.event_type ALLOWED_EVENT_TYPES &&
       optMem p.source ALLOWED_SOURCES &&
       ((p.entities.getD []).any fun e =>
         GLOBAL_ENTITIES.contains (py_upper e)) &&
       (match st with
        | some last => !events_are_identical p last
        | none => true)) := by
  unfold should_accept_event
  split
  · rename_i h1
    simp only [bne, ← Bool.not_or, Bool.not_eq_eq_eq_not, Bool.not_true] at h1
    simp [h1]
  · rename_i h1
    rw [Bool.not_eq_true] at h1
    simp only [bne, ← Bool.not_or, Bool.not_eq_false'] at h1
    split
    · rename_i h2
      rw [Bool.not_eq_true'] at h2
      simp [h2]
    · rename_i h2
      rw [Bool.not_eq_true, Bool.not_eq_false'] at h2
      split
      · rename_i h3
        rw [Bool.not_eq_true'] at h3
        simp [h3]
      · rename_i h3
        rw [Bool.not_eq_true, Bool.not_eq_false'] at h3
        split
        · rename_i h4
          rw [Bool.not_eq_true'] at h4
          rw [h4]
          simp
        · rename_i h4
          rw [Bool.not_eq_true, Bool.not_eq_false'] at h4
          rw [h1, h2, h3, h4]
          simp only [Bool.true_and]
          split
          · rename_i last
            split
            · rename_i hid
              simp [hid]
            · rename_i hid
              rw [Bool.not_eq_true] at hid
              simp [hid]
          · rfl

lemma should_accept_event_cases (p : EventRecord) (st : AcceptanceState) :
    should_accept_event p st = (false, st) ∨
    should_accept_event p st = (true, some p) := by
  unfold should_accept_event
  repeat' first
  | (left; rfl)
  | (right; rfl)
  | split

lemma should_accept_snd_of_false (p : EventRecord) (st : AcceptanceState)
    (hf : (should_accept_event p st).1 = false) :
    (should_accept_event p st).2 = st := by
  rcases should_accept_event_cases p st with h | h
  · rw [h]
  · rw [h] at hf
    simp at hf

lemma should_accept_eventH_cases (h : EntHeap) (p : HRecord)
    (st : Option HRecord) :
    should_accept_eventH h p st = (false, st) ∨
    should_accept_eventH h p st = (true, some p) := by
  unfold should_accept_eventH
  repeat' first
  | (left; rfl)
  | (right; rfl)
  | split

lemma source_map_lookup_eq (u : String) :
    (SOURCE_MAP.lookup u).getD u =
      if u = "TRUMP" ∨ u = "TRUMP_SOCIAL" then "POLITICAL_STATEMENT"
      else if u = "NEWS" ∨ u = "GLOBAL" then "GLOBAL_NEWS"
      else u := by
  simp only [SOURCE_MAP, List.lookup]
  cases e1 : u == "TRUMP" with
  | true => simp_all [beq_iff_eq, beq_eq_false_iff_ne]
  | false =>
    cases e2 : u == "TRUMP_SOCIAL" with
    | true => simp_all [beq_iff_eq, beq_eq_false_iff_ne]
    | false =>
      cases e3 : u == "NEWS" with
      | true => simp_all [beq_iff_eq, beq_eq_false_iff_ne]
      | false =>
        cases e4 : u == "GLOBAL" with
        | true => simp_all [beq_iff_eq, beq_eq_false_iff_ne]
        | false => simp_all [beq_iff_eq, beq_eq_false_iff_ne]

/-! ## Claim theorems -/

/-- C1: for every candidate record and every acceptance state,
`should_accept_event` returns true if and only if all five gates hold:
the source is POLITICAL_STATEMENT or the confidence is exactly HIGH;
the event type is in the allowed event types; the source is in the
allowed sources; some entity, upper-cased, is a global entity; and the
candidate is not identical to the stored last-accepted record under the
four-field equality test. -/
theorem should_accept_event_iff_gates (p : EventRecord) (st : AcceptanceState) :
    (should_accept_event p st).1 = true ↔
      ((p.source = some "POLITICAL_STATEMENT" ∨ p.confidence = some "HIGH") ∧
       (∃ t, p.event_type = some t ∧ t ∈ ALLOWED_EVENT_TYPES) ∧
       (∃ s, p.source = some s ∧ s ∈ ALLOWED_SOURCES) ∧
       (∃ e ∈ p.entities.getD [], py_upper e ∈ GLOBAL_ENTITIES) ∧
       (∀ last, st = some last → events_are_identical p last = false)) := by
  rw [should_accept_fst_eq]
  cases st with
  | none =>
    simp only [Bool.and_eq_true, Bool.or_eq_true, beq_iff_eq, optMem_iff,
      List.any_eq_true, Bool.and_true, and_assoc]
    simp
  | some last =>
    simp only [Bool.and_eq_true, Bool.or_eq_true, beq_iff_eq, optMem_iff,
      List.any_eq_true, Bool.not_eq_true', and_assoc]
    simp

/-- Witness for C1: the canonical Trump/FED record satisfies all five
gates against the empty state, so it is accepted. -/
theorem should_accept_event_iff_gates_apply :
    (should_accept_event recTrumpFed Option.none).1 = true :=
  (should_accept_event_iff_gates recTrumpFed Option.none).mpr
    ⟨Or.inl rfl,
     ⟨"POLITICAL_STATEMENT", rfl, by decide⟩,
     ⟨"POLITICAL_STATEMENT", rfl, by decide⟩,
     ⟨"TRUMP", by decide, by decide⟩,
     fun _ h => nomatch h⟩

/-- C2: the deduplication test compares exactly the four fields
event_type, source, confidence and entities (as an ordered sequence);
re-submitting a record that agrees with the stored one on those four
fields is rejected whatever its timestamp, while the same record with
its entities reordered is not a duplicate and is accepted. -/
theorem dedup_four_field_spec :
    (∀ e1 e2 : EventRecord, events_are_identical e1 e2 = true ↔
        (e1.event_type = e2.event_type ∧ e1.source = e2.source ∧
         e1.confidence = e2.confidence ∧ e1.entities = e2.entities)) ∧
    (∀ p last : EventRecord,
        p.event_type = last.event_type → p.source = last.source →
        p.confidence = last.confidence → p.entities = last.entities →
        should_accept_event p (some last) = (false, some last)) ∧
    (events_are_identical recFedTrump recTrumpFed = false ∧
     (should_accept_event recFedTrump (some recTrumpFed)).1 = true) := by
  refine ⟨?_, ?_, by decide⟩
  · intro e1 e2
    simp [events_are_identical, and_assoc]
  · intro p last h1 h2 h3 h4
    have hid : events_are_identical p last = true := by
      simp [events_are_identical, h1, h2, h3, h4]
    have hfst : (should_accept_event p (some last)).1 = false := by
      rw [should_accept_fst_eq]
      simp [hid]
    have hsnd := should_accept_snd_of_false p (some last) hfst
    exact Prod.ext hfst hsnd

/-- Witness for C2: a record agreeing with the stored one on the four
compared fields but carrying a different timestamp is rejected and the
state is unchanged. -/
theorem dedup_four_field_spec_apply :
    should_accept_event recTrumpFedLater (some recTrumpFed) =
      (false, some recTrumpFed) :=
  dedup_four_field_spec.2.1 recTrumpFedLater recTrumpFed rfl rfl rfl rfl

/-- C3 counterexample: `process_event` does not apply the normalizer to
its candidate.  A candidate differing from canonical form only in the
casing of its confidence is rejected by `process_event` as submitted,
yet its normalized form is accepted, so `process_event` does not judge
candidates by their normalized form. -/
theorem process_event_skips_normalizer :
    (process_event recLowercase Option.none).1 = Option.none ∧
    (process_event (normalize_event recLowercase) Option.none).1 =
      some { event_type := some "GLOBAL_EVENT", confidence := some "HIGH",
             symbol := "USA/CHINA" } := by
  decide

/-- C3 amended: `process_event` applies the acceptance policy directly
to its candidate record, with no prior normalization, and only on
acceptance applies the payload projector to that same record; on
rejection it returns absent with the state unchanged.  The normalizer
is applied by `process_raw_text`, which normalizes the detection result
before handing it to the filter-and-project stage. -/
theorem process_event_policy_then_project (p : EventRecord) (st : AcceptanceState) :
    ((should_accept_event p st).1 = true →
        process_event p st =
          (some { event_type := p.event_type, confidence := p.confidence,
                  symbol := symbol_for (p.entities.getD []) },
           (should_accept_event p st).2)) ∧
    ((should_accept_event p st).1 = false →
        process_event p st = (Option.none, st)) ∧
    (∀ (d : RawDict) (st0 : Option RawDict),
        process_raw_text (.ok (.dict d)) st0 =
          match normalizeRawEvent d with
          | .ok nf =>
            (match processEventRaw nf st0 with
             | .ok res => res
             | .error es => (Option.none, es.2))
          | .error _ => (Option.none, st0)) := by
  refine ⟨?_, ?_, ?_⟩
  · intro h
    simp [process_event, h]
  · intro h
    have hsnd := should_accept_snd_of_false p st h
    simp [process_event, h, hsnd]
  · intro d st0
    simp only [process_raw_text]
    cases hn : normalizeRawEvent d with
    | error e => rfl
    | ok nf =>
      cases hp : processEventRaw nf st0 with
      | ok res => rfl
      | error es => rfl

/-- Witness for C3 amended: the canonical Trump/FED record is accepted
and projected from the record itself. -/
theorem process_event_policy_then_project_apply :
    process_event recTrumpFed Option.none =
      (some { event_type := recTrumpFed.event_type,
              confidence := recTrumpFed.confidence,
              symbol := symbol_for (recTrumpFed.entities.getD []) },
       (should_accept_event recTrumpFed Option.none).2) :=
  (process_event_policy_then_project recTrumpFed Option.none).1 (by decide)

/-- C4 (code bug): `normalize_event` is not total.  The source calls
`.upper()` with no defensive type check, so a non-string `confidence`
or `source`, and a non-string element inside a list-valued `entities`,
each raise `AttributeError` instead of being passed through unmodified
(a non-list `entities` value, by contrast, is left untouched). -/
theorem normalizeRawEvent_error_on_nonstring_fields :
    normalizeRawEvent [("confidence", PyVal.int 42)] = .error .attributeError ∧
    normalizeRawEvent [("source", PyVal.int 7)] = .error .attributeError ∧
    normalizeRawEvent [("entities", PyVal.list [PyVal.str "TRUMP", PyVal.int 3])]
      = .error .attributeError ∧
    normalizeRawEvent [("entities", PyVal.int 7)] = .ok [("entities", PyVal.int 7)] :=
  ⟨rfl, rfl, rfl, rfl⟩

/-- C5 counterexample: the synonym table of `normalize_event` has no
entry for TRUMP_STATEMENT, so a record whose source is the string
trump_statement is normalized to TRUMP_STATEMENT, not to
POLITICAL_STATEMENT as the claim states. -/
theorem normalize_trump_statement_passthrough :
    (normalize_event recTrumpStatementSrc).source = some "TRUMP_STATEMENT" ∧
    SOURCE_MAP.lookup "TRUMP_STATEMENT" = Option.none := by
  decide

/-- C5 amended: the upper-cased source is mapped through exactly the
four-entry synonym table TRUMP and TRUMP_SOCIAL to POLITICAL_STATEMENT,
NEWS and GLOBAL to GLOBAL_NEWS; every other upper-cased source,
including TRUMP_STATEMENT, passes through unchanged. -/
theorem normalize_source_synonym_table (e : EventRecord) (s : String)
    (h : e.source = some s) :
    (normalize_event e).source =
      some (if py_upper s = "TRUMP" ∨ py_upper s = "TRUMP_SOCIAL"
            then "POLITICAL_STATEMENT"
            else if py_upper s = "NEWS" ∨ py_upper s = "GLOBAL"
            then "GLOBAL_NEWS"
            else py_upper s) := by
  simp [normalize_event, h, source_map_lookup_eq]

/-- Witness for C5 amended: applied to the lower-case source
trump_statement, the table misses and the source passes through as
TRUMP_STATEMENT. -/
theorem normalize_source_synonym_table_apply :
    (normalize_event recTrumpStatementSrc).source = some "TRUMP_STATEMENT" := by
  rw [normalize_source_synonym_table recTrumpStatementSrc "trump_statement" rfl]
  decide

/-- C6 counterexample: the state stores a shallow copy.  After the
Trump/FED candidate is accepted, mutating the callers entities list in
place changes what the stored record reads, and a resubmission carrying
the originally accepted field values, which the claim requires to be
rejected as a duplicate, is accepted instead. -/
theorem shallow_copy_shares_entities_cell :
    should_accept_eventH heap0 hrecCand Option.none = (true, some hrecCand) ∧
    entsVal heap0 hrecCand = ["TRUMP", "FED"] ∧
    entsVal heap1 hrecCand = ["TRUMP"] ∧
    events_are_identicalH (heap0 ++ [["TRUMP", "FED"]]) hrecResubmit hrecCand
      = true ∧
    (should_accept_eventH heap2 hrecResubmit (some hrecCand)).1 = true := by
  decide

/-- C6 amended: on acceptance the state is overwritten with a shallow
copy of the candidate: the record is copied but the entities list cell
is shared, so under every later heap the stored record reads exactly
the entities the callers record reads, and in-place mutation of the
callers entities list therefore changes the stored record and later
deduplication outcomes. -/
theorem accept_stores_shallow_copy (h : EntHeap) (p : HRecord)
    (st : Option HRecord)
    (hacc : (should_accept_eventH h p st).1 = true) :
    (should_accept_eventH h p st).2 = some p ∧
    (∀ (h2 : EntHeap) (r : HRecord),
        (should_accept_eventH h p st).2 = some r →
        r.entities.map (readList h2) = p.entities.map (readList h2)) := by
  rcases should_accept_eventH_cases h p st with hc | hc
  · rw [hc] at hacc
    simp at hacc
  · rw [hc]
    refine ⟨rfl, ?_⟩
    intro h2 r hr
    cases hr
    rfl

/-- Witness for C6 amended: the accepted Trump/FED candidate is stored
as is, sharing its entities cell. -/
theorem accept_stores_shallow_copy_apply :
    (should_accept_eventH heap0 hrecCand Option.none).2 = some hrecCand :=
  (accept_stores_shallow_copy heap0 hrecCand Option.none (by decide)).1

/-- C7: for every accepted record the projected payload carries the
event type and confidence through unchanged, and its symbol is derived
from the entities in their original order: first/second entity joined
by a slash, a single entity over NEWS, or GLOBAL/NEWS with no
entities. -/
theorem payload_projection_spec (p : EventRecord) (st : AcceptanceState)
    (hacc : (should_accept_event p st).1 = true) :
    ∃ pl : DevicePayload, (process_event p st).1 = some pl ∧
      pl.event_type = p.event_type ∧ pl.confidence = p.confidence ∧
      (∀ e0 e1 rest, p.entities.getD [] = e0 :: e1 :: rest →
          pl.symbol = e0 ++ "/" ++ e1) ∧
      (∀ e0, p.entities.getD [] = [e0] → pl.symbol = e0 ++ "/NEWS") ∧
      (p.entities.getD [] = [] → pl.symbol = "GLOBAL/NEWS") := by
  refine ⟨{ event_type := p.event_type, confidence := p.confidence,
            symbol := symbol_for (p.entities.getD []) },
          by simp [process_event, hacc], rfl, rfl, ?_, ?_, ?_⟩
  · intro e0 e1 rest hent
    simp [symbol_for, hent]
  · intro e0 hent
    simp [symbol_for, hent]
  · intro hent
    simp [symbol_for, hent]

/-- Witness for C7: the accepted Trump/FED record projects to a payload
whose symbol is TRUMP/FED and whose type and confidence are carried
through. -/
theorem payload_projection_spec_apply :
    ∃ pl : DevicePayload,
      (process_event recTrumpFed Option.none).1 = some pl ∧
      pl.event_type = recTrumpFed.event_type ∧
      pl.confidence = recTrumpFed.confidence ∧
      (∀ e0 e1 rest, recTrumpFed.entities.getD [] = e0 :: e1 :: rest →
          pl.symbol = e0 ++ "/" ++ e1) ∧
      (∀ e0, recTrumpFed.entities.getD [] = [e0] → pl.symbol = e0 ++ "/NEWS") ∧
      (recTrumpFed.entities.getD [] = [] → pl.symbol = "GLOBAL/NEWS") :=
  payload_projection_spec recTrumpFed Option.none (by decide)

/-- C8: `process_raw_text` never propagates a detection failure.  A
raised or unavailable detection call, a non-dict detection result, and
a detection dict on which normalization raises each produce the absent
result with the state unchanged; every raised exception is absorbed by
the surrounding try block, so the function always returns a plain
optional payload. -/
theorem process_raw_text_absorbs_failures (d : Except PyErr PyVal)
    (st : Option RawDict) :
    (∀ e, d = .error e → process_raw_text d st = (Option.none, st)) ∧
    (∀ v, d = .ok v → isDict v = false →
        process_raw_text d st = (Option.none, st)) ∧
    (∀ fields e, d = .ok (.dict fields) → normalizeRawEvent fields = .error e →
        process_raw_text d st = (Option.none, st)) := by
  refine ⟨?_, ?_, ?_⟩
  · rintro e rfl
    rfl
  · rintro v rfl hv
    cases v <;> simp_all [isDict, process_raw_text]
  · rintro fields e rfl hnorm
    simp [process_raw_text, hnorm]

/-- Witness for C8: a raised detection call, a bare-string detection
result and a dict with an integer confidence all map to the absent
result. -/
theorem process_raw_text_absorbs_failures_apply :
    process_raw_text (.error .importError) Option.none =
      (Option.none, Option.none) ∧
    process_raw_text (.ok (PyVal.str "no json")) Option.none =
      (Option.none, Option.none) ∧
    process_raw_text (.ok (PyVal.dict [("confidence", PyVal.int 1)]))
        Option.none = (Option.none, Option.none) :=
  ⟨(process_raw_text_absorbs_failures _ _).1 .importError rfl,
   (process_raw_text_absorbs_failures _ _).2.1 _ rfl rfl,
   (process_raw_text_absorbs_failures _ _).2.2 _ .attributeError rfl rfl⟩

/-- C9: the acceptance state is written only on acceptance or explicit
reset: a rejected candidate leaves the state exactly as it was, the
state starts empty at process start, and `reset_state` clears it. -/
theorem state_written_only_on_acceptance :
    (∀ (p : EventRecord) (st : AcceptanceState),
        (should_accept_event p st).1 = false →
        (should_accept_event p st).2 = st) ∧
    initial_state = Option.none ∧
    (∀ st : AcceptanceState, reset_state st = Option.none) :=
  ⟨should_accept_snd_of_false, rfl, fun _ => rfl⟩

/-- Witness for C9: the all-absent record is rejected against a
non-empty state and the stored record is untouched. -/
theorem state_written_only_on_acceptance_apply :
    (should_accept_event recEmpty (some recTrumpFed)).2 = some recTrumpFed :=
  state_written_only_on_acceptance.1 recEmpty (some recTrumpFed) (by decide)

/-- C10: with source POLITICAL_STATEMENT the confidence gate imposes no
constraint at all: for every confidence value, including an absent one,
the record with valid event type and a global entity is accepted
against the empty state, and the projected payload carries that
arbitrary or absent confidence through unchanged. -/
theorem political_statement_confidence_unconstrained (conf : Option String) :
    (should_accept_event (recPSWithConf conf) Option.none).1 = true ∧
    (process_event (recPSWithConf conf) Option.none).1 =
      some { event_type := some "POLITICAL_STATEMENT", confidence := conf,
             symbol := "TRUMP/FED" } := by
  have h1 : (should_accept_event (recPSWithConf conf) Option.none).1 = true := by
    rw [should_accept_fst_eq]
    simp only [recPSWithConf, beq_self_eq_true, Bool.true_or, Bool.true_and]
    decide
  refine ⟨h1, ?_⟩
  simp only [process_event, h1, if_true]
  rfl
